import Mathlib

/-
  Verification development for the ElectronMirror repository.

  The repository is a small Electron/React application with three source
  files: an App shell (App.tsx) with a "Send IPC" button, a CameraComponent
  that shows a camera feed, and an AudioVisualizer that draws a waveform
  from microphone frequency data on a 2D canvas.

  Shallow embedding conventions:
  - JavaScript numbers are modelled by exact arithmetic: the animation state
    scalars are rationals (they start at rational values and are updated by
    rational operations), while the drawn coordinates, which involve
    Math.sin / Math.pow, live in the real numbers.
  - The Uint8Array of frequency data is a List of naturals (each byte is
    between 0 and 255).
  - DOM / platform side effects (canvas operations, requestAnimationFrame,
    IPC sends, onError callbacks) are modelled as explicit effect lists.
-/

namespace ElectronMirror

/-! ## AudioVisualizer constants (AudioVisualizer/index.tsx lines 23-27) -/

def NUM_LINES : ℕ := 8

def NOISE_THRESHOLD : ℚ := 10

def LINE_WIDTH : ℚ := 12 / 10

def MAX_AMPLITUDE : ℚ := 300

def IDLE_AMPLITUDE : ℚ := 10

/-! ## Animation state (animationStateRef, lines 30-39)

The ref holds a record of eight fields that persists across animation
frames. -/

structure AnimState where
  phase : ℚ
  baseAmplitude : ℚ
  rotationAngle : ℚ
  rotationSpeed : ℚ
  breathPhase : ℚ
  breathSpeed : ℚ
  active : Bool
  targetAmplitude : ℚ
deriving Repr, DecidableEq

/-- Initial value of animationStateRef (lines 30-39). -/
def initAnimState : AnimState :=
  { phase := 0
    baseAmplitude := IDLE_AMPLITUDE
    rotationAngle := 0
    rotationSpeed := 20
    breathPhase := 0
    breathSpeed := 20
    active := false
    targetAmplitude := IDLE_AMPLITUDE }

/-- Average volume over the frequency data (lines 126-128):
sum of all bytes divided by bufferLength. -/
def average (dataArray : List ℕ) : ℚ :=
  (dataArray.sum : ℚ) / (dataArray.length : ℚ)

/-- The per-frame mutation of animationStateRef performed at the top of
drawWaveforms (lines 130-141), in source order: phase, breathPhase and
rotationAngle are incremented, then active is recomputed from the average
volume, then targetAmplitude, then baseAmplitude moves a tenth of the way
toward targetAmplitude. -/
def updateAnimState (s : AnimState) (dataArray : List ℕ) : AnimState :=
  let avg := average dataArray
  let active := decide (avg > NOISE_THRESHOLD + 5)
  let target := if active then min MAX_AMPLITUDE (avg * (1 / 2)) else IDLE_AMPLITUDE
  { s with
    phase := s.phase + 1 / 100
    breathPhase := s.breathPhase + s.breathSpeed
    rotationAngle := s.rotationAngle + s.rotationSpeed
    active := active
    targetAmplitude := target
    baseAmplitude := s.baseAmplitude + (target - s.baseAmplitude) * (1 / 10) }

/-- The animation state after a sequence of frames, each frame receiving one
frequency-data array, starting from the initial state. -/
def runAnimState (frames : List (List ℕ)) : AnimState :=
  frames.foldl updateAnimState initAnimState

/-! ## Frequency-band indexing (lines 203-213) -/

/-- Math.abs(lineIndex - NUM_LINES/2) < NUM_LINES * 0.3 (line 204). -/
def isMiddleLine (lineIndex : ℕ) : Bool :=
  decide (|(lineIndex : ℚ) - (NUM_LINES : ℚ) / 2| < (NUM_LINES : ℚ) * (3 / 10))

/-- freqRange (line 205): middle lines use bufferLength/4, the rest
bufferLength/3. -/
def freqRange (lineIndex bufferLength : ℕ) : ℚ :=
  if isMiddleLine lineIndex then (bufferLength : ℚ) / 4 else (bufferLength : ℚ) / 3

/-- binStart (line 207): Math.floor((lineIndex / NUM_LINES) * freqRange). -/
def binStart (lineIndex bufferLength : ℕ) : ℕ :=
  (Int.floor (((lineIndex : ℚ) / (NUM_LINES : ℚ)) * freqRange lineIndex bufferLength)).toNat

/-- binEnd (line 208): Math.floor(((lineIndex + 1) / NUM_LINES) * freqRange). -/
def binEnd (lineIndex bufferLength : ℕ) : ℕ :=
  (Int.floor ((((lineIndex : ℚ) + 1) / (NUM_LINES : ℚ)) * freqRange lineIndex bufferLength)).toNat

/-- Average of the frequency band of one line (lines 211-213): the sum of
dataArray over bins in [binStart, binEnd), divided by max 1 (binEnd - binStart). -/
def freqAvg (lineIndex : ℕ) (dataArray : List ℕ) : ℚ :=
  let bs := binStart lineIndex dataArray.length
  let be := binEnd lineIndex dataArray.length
  let freqSum : ℕ := ((List.range (be - bs)).map (fun k => dataArray.getD (bs + k) 0)).sum
  (freqSum : ℚ) / (max 1 (be - bs) : ℚ)

/-! ## Per-point drawing formula (lines 178-235)

For a given post-update animation state, frequency data, canvas width and
height, line index and sample index i (0 ≤ i ≤ 128), this computes the
(x, y) coordinate handed to moveTo / lineTo. -/

noncomputable def linePoint (s : AnimState) (dataArray : List ℕ) (cw ch : ℚ)
    (lineIndex i : ℕ) : ℝ × ℝ :=
  let centerX : ℝ := (cw : ℝ) / 2
  let centerY : ℝ := (ch : ℝ) / 2
  let t : ℝ := (i : ℝ) / 128
  let angleOffset : ℝ := ((lineIndex : ℝ) / (NUM_LINES : ℝ)) * Real.pi
  let edgeFactor : ℝ := (4 * t * (1 - t)) ^ (0.5 : ℝ)
  let midBoost : ℝ := (Real.sin (t * Real.pi)) ^ (3 : ℕ) * 1.5
  let enhancedEdgeFactor : ℝ := edgeFactor * (1 + midBoost)
  let amplitude : ℝ :=
    ((s.baseAmplitude : ℝ) * enhancedEdgeFactor) * (1 + Real.sin (s.breathPhase : ℝ) * 0.01)
  let waveformValue : ℝ :=
    if s.active then
      let freqFactor : ℝ := ((freqAvg lineIndex dataArray : ℝ) / 255) * amplitude
      Real.sin (t * 10 + (s.phase : ℝ) + angleOffset) * freqFactor +
        Real.sin (t * 20 + (s.phase : ℝ) * 1.5) * (freqFactor * 0.2)
    else
      Real.sin (t * 8 + (s.phase : ℝ) + angleOffset) * amplitude * 0.25 +
        Real.sin (t * 16 + (s.phase : ℝ) * 1.3) * amplitude * 0.05
  let xStretch : ℝ := 1 + Real.sin ((s.rotationAngle : ℝ) + t * Real.pi * 2) * 0.03
  let x : ℝ := centerX + (t * 2 - 1) * ((cw : ℝ) * 0.5) * xStretch
  let y : ℝ := centerY + waveformValue
  (x, y)

/-! ## Canvas / scheduler effect trace of one drawWaveforms invocation -/

/-- The platform operations drawWaveforms performs, in order of interest:
it registers the next animation frame (line 120), clears the canvas
(line 144), and for each of the NUM_LINES lines begins a path, emits the
129 sampled points via moveTo / lineTo (line 235) and strokes. -/
inductive CanvasOp
  | scheduleFrame
  | clearRect
  | beginPath
  | moveTo (p : ℝ × ℝ)
  | lineTo (p : ℝ × ℝ)
  | stroke

def CanvasOp.isScheduleFrame : CanvasOp → Bool
  | .scheduleFrame => true
  | _ => false

/-- The path operations of one line (lines 176-239): beginPath, then for
i = 0 a moveTo and for 1 ≤ i ≤ 128 a lineTo, then stroke. -/
noncomputable def lineOps (s : AnimState) (dataArray : List ℕ) (cw ch : ℚ)
    (lineIndex : ℕ) : List CanvasOp :=
  [CanvasOp.beginPath] ++
    ((List.range 129).map fun i =>
      if i = 0 then CanvasOp.moveTo (linePoint s dataArray cw ch lineIndex i)
      else CanvasOp.lineTo (linePoint s dataArray cw ch lineIndex i)) ++
    [CanvasOp.stroke]

/-- One invocation of drawWaveforms (lines 111-241): it schedules the next
frame, reads the frequency data, updates the animation state, clears the
canvas and draws every line with the updated state. Returns the new
animation state together with the emitted platform operations. -/
noncomputable def drawWaveforms (s : AnimState) (dataArray : List ℕ) (cw ch : ℚ) :
    AnimState × List CanvasOp :=
  let s2 := updateAnimState s dataArray
  (s2,
    [CanvasOp.scheduleFrame, CanvasOp.clearRect] ++
      ((List.range NUM_LINES).map (lineOps s2 dataArray cw ch)).flatten)

/-! ## AudioVisualizer error handling and rendered view (lines 73-83, 264-280) -/

def micPermissionDeniedMessage : String := "请允许访问麦克风以启用音频可视化"

def micNotFoundMessage : String := "未检测到麦克风设备"

def micGenericFailureMessage : String := "音频初始化失败，请检查设备设置"

/-- The error string initAudio stores for a failure whose Error.name is
errName (lines 76-82): NotAllowedError and NotFoundError get dedicated
messages, every other failure the generic fallback. -/
def initAudioErrorMessage (errName : String) : String :=
  if errName = "NotAllowedError" then micPermissionDeniedMessage
  else if errName = "NotFoundError" then micNotFoundMessage
  else micGenericFailureMessage

inductive AudioUINode
  | errorText (msg : String)
  | retryButton
  | visualizerCanvas
  | statusIndicator (active : Bool) (label : String)
deriving DecidableEq, Repr

/-- The AudioVisualizer render output (lines 264-280): when an error is set
it shows the error text together with a button labelled 重试 whose onClick
reloads the page; otherwise the canvas and the status indicator. -/
def audioVisualizerView (error : Option String) (isListening : Bool) : List AudioUINode :=
  match error with
  | some msg => [AudioUINode.errorText msg, AudioUINode.retryButton]
  | none =>
      [AudioUINode.visualizerCanvas,
        AudioUINode.statusIndicator isListening
          (if isListening then "正在聆听..." else "初始化中...")]

/-! ## CameraComponent setup and error handling (CameraComponent/index.tsx) -/

def cameraErrorMessage : String := "无法访问摄像头，请检查权限设置"

/-- The possible causes of a getUserMedia rejection, by DOMException name. -/
inductive CameraFailure
  | notAllowed
  | notFound
  | notReadable
  | overconstrained
  | other (name : String)
deriving DecidableEq, Repr

inductive CameraEffect
  | getUserMedia
  | setVideoSource
  | playVideo
  | setCameraActive
  | consoleError
  | onErrorCall (msg : String)
deriving DecidableEq, Repr

def CameraEffect.isGetUserMedia : CameraEffect → Bool
  | .getUserMedia => true
  | _ => false

def CameraEffect.errorMessageOf : CameraEffect → Option String
  | .onErrorCall msg => some msg
  | _ => none

/-- setupCamera (CameraComponent lines 16-39): it calls getUserMedia once;
on success it binds the stream to the video element, plays it and marks the
camera active; on any failure the catch block logs to the console and calls
onError with the single fixed message — there is no branching on the
failure cause and no further action. -/
def setupCamera (outcome : Except CameraFailure Unit) : List CameraEffect :=
  CameraEffect.getUserMedia ::
    (match outcome with
      | .ok _ => [CameraEffect.setVideoSource, CameraEffect.playVideo,
          CameraEffect.setCameraActive]
      | .error _ => [CameraEffect.consoleError,
          CameraEffect.onErrorCall cameraErrorMessage])

/-! ## App shell IPC button (App.tsx lines 11-14, 40-42) -/

structure IpcMessage where
  channel : String
  args : List String
deriving DecidableEq, Repr

/-- ipcHandle (App.tsx lines 11-14): one click of the Send IPC button runs
window.electron.ipcRenderer.send with channel literal ping and no further
arguments. -/
def ipcHandle : List IpcMessage :=
  [{ channel := "ping", args := [] }]

/-- The messages sent after n clicks of the Send IPC button: each click
invokes ipcHandle once. -/
def sendIpcClicks (n : ℕ) : List IpcMessage :=
  (List.replicate n ipcHandle).flatten

/-! ## Resource lifecycle on mount and unmount

AudioVisualizer acquires, on a successful initAudio (lines 49-72): a
microphone MediaStream (stored in mediaStreamRef), an AudioContext (stored
with setAudioContext in React state), a source node connected to the
analyser (stored in sourceRef), and a pending animation frame (stored in
animationRef once startDrawing runs).

cleanupAudio (lines 254-261) reads animationRef, sourceRef and
mediaStreamRef — refs, whose current value is read at call time — but reads
the audioContext through the React state variable. The mount effect has an
empty dependency list, so the cleanup closure it returns is the one created
during the first render, and the audioContext binding that closure sees is
the first render state value, which is still null: setAudioContext only
affects later renders, not the already-registered cleanup closure. -/

structure AudioResources where
  animationFramePending : Bool
  sourceConnected : Bool
  micTracksLive : List Bool
  contextOpen : Bool
deriving DecidableEq, Repr

/-- The ref cells read by cleanupAudio, with the values they hold at
unmount time (refs always expose their current value). -/
structure AudioRefsSnapshot where
  animationRef : Option ℕ
  sourceRefSet : Bool
  mediaStreamSet : Bool
deriving DecidableEq, Repr

/-- cleanupAudio (lines 254-261): cancel the animation frame if animationRef
is set, disconnect the source if sourceRef is set, stop every track of the
media stream if mediaStreamRef is set, and close the audio context if the
audioContext binding visible to this closure is non-null. -/
def cleanupAudio (refs : AudioRefsSnapshot) (capturedAudioContext : Option Unit)
    (r : AudioResources) : AudioResources :=
  let r1 := if (refs.animationRef).isSome then { r with animationFramePending := false } else r
  let r2 := if refs.sourceRefSet then { r1 with sourceConnected := false } else r1
  let r3 :=
    if refs.mediaStreamSet then { r2 with micTracksLive := r2.micTracksLive.map fun _ => false }
    else r2
  if capturedAudioContext.isSome then { r3 with contextOpen := false } else r3

/-- Resources held after a successful initAudio and the first
startDrawing frame, for a microphone stream with n tracks. -/
def mountedAudioResources (n : ℕ) : AudioResources :=
  { animationFramePending := true
    sourceConnected := true
    micTracksLive := List.replicate n true
    contextOpen := true }

/-- The ref values at unmount after a successful mount: all three refs were
assigned during initAudio / startDrawing. -/
def mountedAudioRefs : AudioRefsSnapshot :=
  { animationRef := some 1, sourceRefSet := true, mediaStreamSet := true }

/-- The audioContext state binding captured by the mount-effect cleanup
closure: the first render value, null — setAudioContext (line 69) updates
state for later renders but the effect with empty dependencies never
re-runs, so its cleanup keeps the first render closure. -/
def capturedAudioContextAtMount : Option Unit := none

/-- The audio resources after unmounting a successfully mounted
AudioVisualizer whose microphone stream had n tracks. -/
def audioUnmount (n : ℕ) : AudioResources :=
  cleanupAudio mountedAudioRefs capturedAudioContextAtMount (mountedAudioResources n)

/-- The CameraComponent cleanup (CameraComponent lines 44-49): if
videoStreamRef is set, stop every track of the camera stream. The input and
output are the per-track live flags. -/
def cameraCleanup (streamSet : Bool) (camTracksLive : List Bool) : List Bool :=
  if streamSet then camTracksLive.map fun _ => false else camTracksLive

/-! ## Concrete inputs used by counterexamples and witnesses -/

/-- A frequency-data array of a silent microphone: four zero bytes. -/
def silentData : List ℕ := List.replicate 4 0

/-- A frequency-data array of a saturated microphone: four bytes at 255. -/
def loudData : List ℕ := List.replicate 4 255

/-- The animation state drawn in the first frame of a run with a silent
microphone (the state mutation happens before drawing). -/
def idleFrame1 : AnimState := updateAnimState initAnimState silentData

/-- The animation state drawn in the second frame of the same silent run. -/
def idleFrame2 : AnimState := updateAnimState idleFrame1 silentData

/-- An animation state agreeing with the initial one on every field read by
the drawing formula but differing in targetAmplitude. -/
def altAnimState : AnimState := { initAnimState with targetAmplitude := 50 }

/-! # Theorems -/

/-! ## Shared helper lemmas -/

/-- sin 40 and sin 20 (radians) differ: both reduce modulo 2π into the
monotone branch of sine, where their representatives are ordered. Used to
separate the x coordinates of two consecutive frames, whose rotation angles
are 20 and 40. -/
theorem sin40_lt_sin20 : Real.sin 40 < Real.sin 20 := by
  have hpi1 : (3.14 : ℝ) < Real.pi := Real.pi_gt_d2
  have hpi2 : Real.pi < 3.1416 := Real.pi_lt_d4
  have h20 : Real.sin (20 - 6 * Real.pi) = Real.sin 20 := by
    rw [show (20 : ℝ) - 6 * Real.pi =
        20 - 2 * Real.pi - 2 * Real.pi - 2 * Real.pi from by ring]
    rw [Real.sin_sub_two_pi, Real.sin_sub_two_pi, Real.sin_sub_two_pi]
  have h40 : Real.sin (13 * Real.pi - 40) = Real.sin 40 := by
    rw [show (13 : ℝ) * Real.pi - 40 = Real.pi - (40 - 12 * Real.pi) from by ring,
      Real.sin_pi_sub]
    rw [show (40 : ℝ) - 12 * Real.pi =
        40 - 2 * Real.pi - 2 * Real.pi - 2 * Real.pi - 2 * Real.pi - 2 * Real.pi - 2 * Real.pi
        from by ring]
    rw [Real.sin_sub_two_pi, Real.sin_sub_two_pi, Real.sin_sub_two_pi,
      Real.sin_sub_two_pi, Real.sin_sub_two_pi, Real.sin_sub_two_pi]
  have hlt : Real.sin (13 * Real.pi - 40) < Real.sin (20 - 6 * Real.pi) := by
    apply Real.strictMonoOn_sin
    · constructor <;> nlinarith
    · constructor <;> nlinarith
    · nlinarith
  rw [h20, h40] at hlt
  exact hlt

/-- The average volume of a byte array whose entries are at most 255 is at
most 255. -/
theorem average_le_255 (d : List ℕ) (hb : ∀ b ∈ d, b ≤ 255) : average d ≤ 255 := by
  unfold average
  rcases eq_or_ne d [] with rfl | hne
  · norm_num
  · have h := List.sum_le_card_nsmul d 255 hb
    have h2 : d.sum ≤ d.length * 255 := by simpa [smul_eq_mul] using h
    have hsum : (d.sum : ℚ) ≤ (d.length : ℚ) * 255 := by exact_mod_cast h2
    have hlen : (0 : ℚ) < (d.length : ℚ) := by
      exact_mod_cast List.length_pos.mpr hne
    rw [div_le_iff₀ hlen]
    linarith

/-- The average volume is nonnegative. -/
theorem average_nonneg (d : List ℕ) : 0 ≤ average d := by
  unfold average
  positivity

/-- After one frame, targetAmplitude lies in [15/2, 255/2]: when active it
equals half the average (the clamp against MAX_AMPLITUDE never binds since
the average is at most 255), otherwise it is IDLE_AMPLITUDE. -/
theorem target_bounds (s : AnimState) (d : List ℕ) (hb : ∀ b ∈ d, b ≤ 255) :
    15 / 2 ≤ (updateAnimState s d).targetAmplitude ∧
      (updateAnimState s d).targetAmplitude ≤ 255 / 2 := by
  have h1 := average_le_255 d hb
  have h0 := average_nonneg d
  simp only [updateAnimState, NOISE_THRESHOLD, MAX_AMPLITUDE, IDLE_AMPLITUDE]
  by_cases hac : average d > 10 + 5
  · rw [if_pos (by simpa using hac)]
    rw [min_eq_right (by linarith)]
    constructor <;> linarith
  · rw [if_neg (by simpa using hac)]
    norm_num

/-- The baseAmplitude projection of one frame step, as a formula in the old
base and the new target. -/
theorem base_step_eq (s : AnimState) (d : List ℕ) :
    (updateAnimState s d).baseAmplitude =
      s.baseAmplitude + ((updateAnimState s d).targetAmplitude - s.baseAmplitude) * (1 / 10) := by
  simp only [updateAnimState]

/-- One frame step preserves the baseAmplitude interval [15/2, 255/2]. -/
theorem base_step_bounds (s : AnimState) (d : List ℕ) (hb : ∀ b ∈ d, b ≤ 255)
    (h : 15 / 2 ≤ s.baseAmplitude ∧ s.baseAmplitude ≤ 255 / 2) :
    15 / 2 ≤ (updateAnimState s d).baseAmplitude ∧
      (updateAnimState s d).baseAmplitude ≤ 255 / 2 := by
  have ht := target_bounds s d hb
  rw [base_step_eq]
  constructor <;> linarith [h.1, h.2, ht.1, ht.2]

/-- The folded invariant: from any state whose baseAmplitude is in
[15/2, 255/2] and whose targetAmplitude is IDLE_AMPLITUDE or at most 255/2,
any sequence of well-formed frames keeps both facts. -/
theorem run_inv (frames : List (List ℕ)) :
    ∀ (s : AnimState), (∀ d ∈ frames, ∀ b ∈ d, b ≤ 255) →
    (15 / 2 ≤ s.baseAmplitude ∧ s.baseAmplitude ≤ 255 / 2) →
    (s.targetAmplitude = IDLE_AMPLITUDE ∨ s.targetAmplitude ≤ 255 / 2) →
    ((15 / 2 ≤ (frames.foldl updateAnimState s).baseAmplitude ∧
        (frames.foldl updateAnimState s).baseAmplitude ≤ 255 / 2) ∧
      ((frames.foldl updateAnimState s).targetAmplitude = IDLE_AMPLITUDE ∨
        (frames.foldl updateAnimState s).targetAmplitude ≤ 255 / 2)) := by
  induction frames with
  | nil => intro s _ hbase htgt; exact ⟨hbase, htgt⟩
  | cons d rest ih =>
      intro s hf hbase htgt
      have hd : ∀ b ∈ d, b ≤ 255 := hf d (by simp)
      have hrest : ∀ d' ∈ rest, ∀ b ∈ d', b ≤ 255 := fun d' h' => hf d' (by simp [h'])
      exact ih (updateAnimState s d) hrest (base_step_bounds s d hd hbase)
        (Or.inr (target_bounds s d hd).2)

/-- The list of IPC messages after n clicks is n copies of the ping
message. -/
theorem sendIpcClicks_eq (n : ℕ) :
    sendIpcClicks n = List.replicate n { channel := "ping", args := [] } := by
  induction n with
  | zero => rfl
  | succ k ih =>
      simp only [sendIpcClicks, List.replicate_succ, List.flatten_cons] at ih ⊢
      rw [ih]
      rfl

/-! ## Claim C1 -/

/-- Claim C1, counterexample: a microphone-initialization failure whose
Error.name is NotReadableError is shown with a third error string, distinct
from both the permission-denied and the device-not-found strings, and the
error view presents a retry button — refuting both halves of the claim that
errors are limited to exactly two strings with no retry mechanism. -/
theorem audio_error_third_string_and_retry :
    initAudioErrorMessage "NotReadableError" ≠ micPermissionDeniedMessage ∧
    initAudioErrorMessage "NotReadableError" ≠ micNotFoundMessage ∧
    AudioUINode.retryButton ∈
      audioVisualizerView (some (initAudioErrorMessage "NotReadableError")) false := by
  refine ⟨?_, ?_, ?_⟩ <;> decide

/-- Claim C1 (amended): every microphone-initialization failure is shown as
one of exactly three strings — permission denied, device not found, or a
generic initialization-failure fallback — and whenever an error is shown
the view also presents a retry button (which reloads the page); the button
is absent when no error is set. -/
theorem audio_error_messages_and_retry_button :
    (∀ errName, initAudioErrorMessage errName = micPermissionDeniedMessage ∨
      initAudioErrorMessage errName = micNotFoundMessage ∨
      initAudioErrorMessage errName = micGenericFailureMessage) ∧
    (∀ msg listening, AudioUINode.retryButton ∈ audioVisualizerView (some msg) listening) ∧
    (∀ listening, AudioUINode.retryButton ∉ audioVisualizerView none listening) := by
  refine ⟨fun errName => ?_, fun msg listening => ?_, fun listening => ?_⟩
  · unfold initAudioErrorMessage
    split
    · exact Or.inl rfl
    · split
      · exact Or.inr (Or.inl rfl)
      · exact Or.inr (Or.inr rfl)
  · simp [audioVisualizerView]
  · simp [audioVisualizerView]

/-! ## Claim C2 -/

/-- Claim C2, counterexample: the first and second frames of a run with a
silent microphone receive identical frequency data and identical canvas
dimensions (100 by 100), yet draw different curves: the first sampled point
of line 0 differs, because its x coordinate depends on the rotation angle,
which is 20 in the first frame and 40 in the second. The per-frame shape is
therefore not a formula of the frequency data, dimensions and constants
alone. -/
theorem waveform_frames_differ_with_equal_data :
    linePoint idleFrame1 silentData 100 100 0 0 ≠
      linePoint idleFrame2 silentData 100 100 0 0 := by
  have hr1 : idleFrame1.rotationAngle = 20 := by
    norm_num [idleFrame1, updateAnimState, initAnimState, average, silentData,
      NOISE_THRESHOLD]
  have hr2 : idleFrame2.rotationAngle = 40 := by
    norm_num [idleFrame2, idleFrame1, updateAnimState, initAnimState, average,
      silentData, NOISE_THRESHOLD]
  intro h
  have hx := congrArg Prod.fst h
  simp only [linePoint, hr1, hr2] at hx
  norm_num at hx
  nlinarith [sin40_lt_sin20]

/-- Claim C2 (amended): the set of points drawn in one frame is a fixed
formula of the frequency data of that frame, the canvas dimensions, the tunable
constants, and the current animation scalars actually read by the drawing
code — phase, breath phase, rotation angle, base amplitude and the active
flag; two frames agreeing on the frequency data, the dimensions and those
scalars draw identical curves (in particular the remaining state fields,
rotationSpeed, breathSpeed and targetAmplitude, do not influence the
shape). -/
theorem linePoint_determined_by_drawn_state (s s' : AnimState) (d : List ℕ)
    (cw ch : ℚ) (lineIndex i : ℕ)
    (h1 : s.phase = s'.phase) (h2 : s.baseAmplitude = s'.baseAmplitude)
    (h3 : s.rotationAngle = s'.rotationAngle) (h4 : s.breathPhase = s'.breathPhase)
    (h5 : s.active = s'.active) :
    linePoint s d cw ch lineIndex i = linePoint s' d cw ch lineIndex i := by
  simp only [linePoint, h1, h2, h3, h4, h5]

/-- Witness for the amended Claim C2 at two concrete states that differ in
targetAmplitude but agree on every field the drawing formula reads. -/
theorem linePoint_determined_by_drawn_state_witness :
    initAnimState.phase = altAnimState.phase ∧
    initAnimState.baseAmplitude = altAnimState.baseAmplitude ∧
    initAnimState.rotationAngle = altAnimState.rotationAngle ∧
    initAnimState.breathPhase = altAnimState.breathPhase ∧
    initAnimState.active = altAnimState.active ∧
    linePoint initAnimState silentData 100 100 0 0 =
      linePoint altAnimState silentData 100 100 0 0 :=
  ⟨rfl, rfl, rfl, rfl, rfl,
    linePoint_determined_by_drawn_state initAnimState altAnimState silentData
      100 100 0 0 rfl rfl rfl rfl rfl⟩

/-! ## Claim C3 -/

/-- Claim C3: on unmount the camera cleanup does stop every camera track,
and the audio cleanup does cancel the pending animation frame, disconnect
the source node and stop every microphone track — but it does NOT close the
audio context: the mount-effect cleanup closure reads the audioContext
React state binding of the first render, which is still null, so the close
call is skipped and the context is left open. The last conjunct documents
the divergence from the claim. -/
theorem cleanup_releases_all_but_audio_context (n : ℕ) :
    cameraCleanup true (List.replicate n true) = List.replicate n false ∧
    (audioUnmount n).animationFramePending = false ∧
    (audioUnmount n).sourceConnected = false ∧
    (audioUnmount n).micTracksLive = List.replicate n false ∧
    (audioUnmount n).contextOpen = true := by
  refine ⟨?_, ?_, ?_, ?_, ?_⟩ <;>
    simp [cameraCleanup, audioUnmount, cleanupAudio, mountedAudioRefs,
      mountedAudioResources, capturedAudioContextAtMount, List.map_replicate]

/-! ## Claim C4 -/

/-- Claim C4, counterexample: one loud frame from the initial state changes
breathPhase, the active flag and targetAmplitude — three mutable fields of
the animation record that persist across frames and are outside the
claimed inventory (phase, amplitude, rotation angle). -/
theorem anim_state_extra_fields_mutate :
    (updateAnimState initAnimState loudData).breathPhase ≠ initAnimState.breathPhase ∧
    (updateAnimState initAnimState loudData).active ≠ initAnimState.active ∧
    (updateAnimState initAnimState loudData).targetAmplitude ≠
      initAnimState.targetAmplitude := by
  norm_num [updateAnimState, initAnimState, average, loudData, NOISE_THRESHOLD,
    MAX_AMPLITUDE, IDLE_AMPLITUDE]

/-- Claim C4 (amended): the per-frame animation record carries eight
fields. Beyond phase, baseAmplitude and rotationAngle, the fields
breathPhase, active and targetAmplitude are also mutated across frames
(shown at a concrete loud frame), while rotationSpeed and breathSpeed are
never changed by the frame update. -/
theorem anim_state_full_inventory :
    (∀ (s : AnimState) (d : List ℕ),
      (updateAnimState s d).rotationSpeed = s.rotationSpeed ∧
      (updateAnimState s d).breathSpeed = s.breathSpeed) ∧
    ((updateAnimState initAnimState loudData).breathPhase = 20 ∧
      (updateAnimState initAnimState loudData).active = true ∧
      (updateAnimState initAnimState loudData).targetAmplitude = 255 / 2) := by
  constructor
  · intro s d
    constructor <;> simp [updateAnimState]
  · refine ⟨?_, ?_, ?_⟩ <;>
      norm_num [updateAnimState, initAnimState, average, loudData, NOISE_THRESHOLD,
        MAX_AMPLITUDE, IDLE_AMPLITUDE]

/-! ## Claim C5 -/

/-- Claim C5: every invocation of drawWaveforms registers exactly one
subsequent animation-frame callback, whatever the current animation state,
frequency data and canvas dimensions — the drawing loop re-schedules itself
unconditionally each frame. -/
theorem drawWaveforms_schedules_exactly_one_frame (s : AnimState) (d : List ℕ)
    (cw ch : ℚ) :
    ((drawWaveforms s d cw ch).2.countP fun op => CanvasOp.isScheduleFrame op) = 1 := by
  have h0 : (((List.range NUM_LINES).map
      (lineOps (updateAnimState s d) d cw ch)).flatten.countP
        fun op => CanvasOp.isScheduleFrame op) = 0 := by
    apply List.countP_eq_zero.mpr
    intro op hop
    simp only [List.mem_flatten, List.mem_map, List.mem_range] at hop
    obtain ⟨l, ⟨li, _, rfl⟩, hop⟩ := hop
    simp only [lineOps, List.mem_append, List.mem_map, List.mem_singleton,
      List.mem_range, List.mem_cons, List.not_mem_nil, or_false] at hop
    rcases hop with (rfl | ⟨i, _, rfl⟩) | rfl
    · simp [CanvasOp.isScheduleFrame]
    · by_cases hi : i = 0 <;> simp [hi, CanvasOp.isScheduleFrame]
    · simp [CanvasOp.isScheduleFrame]
  simp only [drawWaveforms, List.countP_append, h0]
  rfl

/-! ## Claim C6 -/

/-- Claim C6: for every possible failure cause of camera setup, the catch
block reports exactly the one fixed permission message through onError, and
performs no retry: the getUserMedia call is made exactly once and the
failure path contains no further capture attempt or recovery action. -/
theorem setupCamera_single_error_message (e : CameraFailure) :
    (setupCamera (Except.error e)).filterMap CameraEffect.errorMessageOf =
      [cameraErrorMessage] ∧
    ((setupCamera (Except.error e)).countP fun eff => CameraEffect.isGetUserMedia eff) = 1 ∧
    setupCamera (Except.error e) =
      [CameraEffect.getUserMedia, CameraEffect.consoleError,
        CameraEffect.onErrorCall cameraErrorMessage] := by
  refine ⟨rfl, rfl, rfl⟩

/-! ## Claim C7 -/

/-- Claim C7: n clicks of the Send IPC button send exactly n inter-process
messages, and every message sent is on the channel named ping with no
payload arguments — in particular each single click sends exactly one such
message. -/
theorem sendIpc_one_ping_per_click (n : ℕ) :
    (sendIpcClicks n).length = n ∧
    ∀ m ∈ sendIpcClicks n, m.channel = "ping" ∧ m.args = [] := by
  rw [sendIpcClicks_eq]
  refine ⟨List.length_replicate n _, fun m hm => ?_⟩
  have := List.eq_of_mem_replicate hm
  subst this
  exact ⟨rfl, rfl⟩

/-! ## Claim C8 -/

/-- Claim C8: for every line index below NUM_LINES and every bufferLength of
at least 1, the frequency-band bounds satisfy binStart ≤ binEnd ≤
bufferLength, every bin read by the averaging loop is inside the data
array, and the divisor max 1 (binEnd - binStart) is at least 1, so the
average is never a division by zero. -/
theorem freq_band_indexing_in_bounds (lineIndex bufferLength : ℕ)
    (hl : lineIndex < NUM_LINES) (hb : 1 ≤ bufferLength) :
    binStart lineIndex bufferLength ≤ binEnd lineIndex bufferLength ∧
    binEnd lineIndex bufferLength ≤ bufferLength ∧
    (∀ bin, binStart lineIndex bufferLength ≤ bin →
      bin < binEnd lineIndex bufferLength → bin < bufferLength) ∧
    1 ≤ max 1 (binEnd lineIndex bufferLength - binStart lineIndex bufferLength) := by
  have hL0 : (0 : ℚ) ≤ (bufferLength : ℚ) := by positivity
  have hf0 : 0 ≤ freqRange lineIndex bufferLength := by
    unfold freqRange
    split <;> positivity
  have hfL : freqRange lineIndex bufferLength ≤ (bufferLength : ℚ) := by
    unfold freqRange
    split <;> linarith
  have hN : (0 : ℚ) < (NUM_LINES : ℚ) := by norm_num [NUM_LINES]
  have hstep : ((lineIndex : ℚ) / (NUM_LINES : ℚ)) * freqRange lineIndex bufferLength ≤
      (((lineIndex : ℚ) + 1) / (NUM_LINES : ℚ)) * freqRange lineIndex bufferLength := by
    apply mul_le_mul_of_nonneg_right _ hf0
    gcongr
    linarith
  have h1 : binStart lineIndex bufferLength ≤ binEnd lineIndex bufferLength := by
    unfold binStart binEnd
    exact Int.toNat_le_toNat (Int.floor_le_floor hstep)
  have harg : (((lineIndex : ℚ) + 1) / (NUM_LINES : ℚ)) * freqRange lineIndex bufferLength ≤
      (bufferLength : ℚ) := by
    have hle1 : ((lineIndex : ℚ) + 1) / (NUM_LINES : ℚ) ≤ 1 := by
      rw [div_le_one hN]
      have hsucc : lineIndex + 1 ≤ NUM_LINES := hl
      exact_mod_cast hsucc
    calc ((lineIndex : ℚ) + 1) / (NUM_LINES : ℚ) * freqRange lineIndex bufferLength ≤
        1 * freqRange lineIndex bufferLength := mul_le_mul_of_nonneg_right hle1 hf0
      _ = freqRange lineIndex bufferLength := one_mul _
      _ ≤ (bufferLength : ℚ) := hfL
  have h2 : binEnd lineIndex bufferLength ≤ bufferLength := by
    unfold binEnd
    rw [Int.toNat_le]
    calc Int.floor ((((lineIndex : ℚ) + 1) / (NUM_LINES : ℚ)) *
          freqRange lineIndex bufferLength) ≤ Int.floor ((bufferLength : ℚ)) :=
        Int.floor_le_floor harg
      _ = (bufferLength : ℤ) := Int.floor_natCast bufferLength
  exact ⟨h1, h2, fun bin _ hlt => lt_of_lt_of_le hlt h2, le_max_left _ _⟩

/-- Witness for Claim C8 at line index 3 and the actual bufferLength 1024
(fftSize 2048 gives frequencyBinCount 1024). -/
theorem freq_band_indexing_in_bounds_witness :
    3 < NUM_LINES ∧ 1 ≤ 1024 ∧
    (binStart 3 1024 ≤ binEnd 3 1024 ∧
      binEnd 3 1024 ≤ 1024 ∧
      (∀ bin, binStart 3 1024 ≤ bin → bin < binEnd 3 1024 → bin < 1024) ∧
      1 ≤ max 1 (binEnd 3 1024 - binStart 3 1024)) :=
  ⟨by decide, by decide, freq_band_indexing_in_bounds 3 1024 (by decide) (by decide)⟩

/-! ## Claim C9 -/

/-- Claim C9: over every run of frames whose bytes are all at most 255, the
baseAmplitude — starting at IDLE_AMPLITUDE = 10 and moved each frame a
tenth of the way toward targetAmplitude — stays in the closed interval
[15/2, 255/2], and the targetAmplitude of every reached state is either
IDLE_AMPLITUDE or at most 255/2 (the clamp against MAX_AMPLITUDE = 300
never binds, since half the average volume is at most 255/2). -/
theorem baseAmplitude_bounded_invariant (frames : List (List ℕ))
    (hf : ∀ d ∈ frames, ∀ b ∈ d, b ≤ 255) :
    (15 / 2 ≤ (runAnimState frames).baseAmplitude ∧
      (runAnimState frames).baseAmplitude ≤ 255 / 2) ∧
    ((runAnimState frames).targetAmplitude = IDLE_AMPLITUDE ∨
      (runAnimState frames).targetAmplitude ≤ 255 / 2) := by
  have hinit : 15 / 2 ≤ initAnimState.baseAmplitude ∧
      initAnimState.baseAmplitude ≤ 255 / 2 := by
    norm_num [initAnimState, IDLE_AMPLITUDE]
  exact run_inv frames initAnimState hf hinit (Or.inl rfl)

/-- Witness for Claim C9 on the concrete two-frame run consisting of one
loud array and one mixed array. -/
theorem baseAmplitude_bounded_invariant_witness :
    (∀ d ∈ [[255, 255], [255, 0]], ∀ b ∈ d, b ≤ 255) ∧
    ((15 / 2 ≤ (runAnimState [[255, 255], [255, 0]]).baseAmplitude ∧
        (runAnimState [[255, 255], [255, 0]]).baseAmplitude ≤ 255 / 2) ∧
      ((runAnimState [[255, 255], [255, 0]]).targetAmplitude = IDLE_AMPLITUDE ∨
        (runAnimState [[255, 255], [255, 0]]).targetAmplitude ≤ 255 / 2)) :=
  ⟨by decide, baseAmplitude_bounded_invariant [[255, 255], [255, 0]] (by decide)⟩

/-! ## Claim C10 -/

/-- Claim C10: in every frame, for every line and in both the active and
idle branches, the first sampled point (i = 0) and the last (i = 128) lie
exactly on the vertical canvas center: the edge factor (4t(1-t))^0.5
vanishes at t = 0 and t = 1, which zeroes the amplitude and hence the whole
waveform term of y. -/
theorem waveform_anchored_at_center (s : AnimState) (d : List ℕ) (cw ch : ℚ)
    (lineIndex i : ℕ) (hi : i = 0 ∨ i = 128) :
    (linePoint s d cw ch lineIndex i).2 = (ch : ℝ) / 2 := by
  have h05 : (0.5 : ℝ) ≠ 0 := by norm_num
  rcases hi with rfl | rfl <;>
    · simp only [linePoint]
      norm_num [Real.zero_rpow h05]

/-- Witness for Claim C10 at the first sampled point of line 0 in the first
idle frame on a 100 by 100 canvas. -/
theorem waveform_anchored_at_center_witness :
    (0 = 0 ∨ 0 = 128) ∧
    (linePoint idleFrame1 silentData 100 100 0 0).2 = ((100 : ℚ) : ℝ) / 2 :=
  ⟨Or.inl rfl,
    waveform_anchored_at_center idleFrame1 silentData 100 100 0 0 (Or.inl rfl)⟩

end ElectronMirror
